import Mathlib

/-!
Shallow embedding of the pyke demo programs.

The repository contains three C++ source files:

* `demos/ext_deps/src/main.cpp` — a parse-and-query demo: it feeds the
  hardcoded string `{foo:bar}` to the external humon parser
  (`hu::Trove::fromString`), and if a `hu::Trove` comes back it prints the
  string value of the node under key `foo`, otherwise it prints `plugh`.
* `demos/simple/src/simple.cpp` — the GUI demo's `main`: it creates a
  `Gtk::Application` (forwarding `argc`/`argv`), loads a glade layout file,
  obtains the derived window and runs the application loop, handling the
  two failure paths with try/catch.
* `demos/simple/src/simple_ui.cpp` — the window constructor: it looks up a
  quit button and four labels from the builder, null-checks each pointer,
  connects the button's clicked signal to `on_click`, and sets the four
  label texts from four library getter calls; `on_click` hides the window.

The external libraries (humon, gtkmm, the two string-getter demo
libraries) are not part of this repository; they are embedded as explicit
environment records of the outcomes of the external calls the demos make.
Exceptions thrown by external calls are embedded as `Except` values, and a
pointer that may be null is embedded as `Option`, with dereference a
fallible operation, so that "no null dereference" is a provable statement
about the embedding rather than an artifact of it.
-/

namespace Pyke

/-- Dereferencing an embedded pointer: fails exactly on null. -/
def deref {α : Type} : Option α → Except Unit α
  | none => Except.error ()
  | some a => Except.ok a

/-- Whether an `Except` is the error variant. -/
def isErr {ε α : Type} : Except ε α → Bool
  | Except.error _ => true
  | Except.ok _ => false

/-! ## The parse-and-query demo (`demos/ext_deps/src/main.cpp`) -/

/-- Model of `hu::Trove`: a parsed document, as the key/value entries the
demo can query (`trove / key % hu::val<std::string_view>{}`). -/
structure Trove where
  entries : List (String × String)
deriving Repr, DecidableEq

/-- Model of the query `*t / key % hu::val<std::string_view>{}`:
look up `key` among the trove's entries. -/
def Trove.queryStr (t : Trove) (key : String) : String :=
  (t.entries.lookup key).getD ""

/-- Observable result of one of the demo programs: what it printed to
standard output, and its exit status. -/
structure ProgResult where
  output : String
  exitCode : Nat
deriving Repr, DecidableEq

/-- Environment for the parse-and-query demo: the behaviour of the external
humon library calls it makes. `fromString` returns `none` for humon's
"not a trove / not a document" variant of `hu::Trove::fromString`. -/
structure HuLib where
  fromString : String → Option Trove
  query : Trove → String → String

/-- Embedding of `main` of `demos/ext_deps/src/main.cpp`:

```cpp
auto src = "{foo:bar}";
auto h = hu::Trove::fromString(src);
if (auto t = std::get_if<hu::Trove>(& h))
{
    auto foobar = *t / "foo" % hu::val<std::string_view> {};
    fmt::print("{}", foobar);
}
else
{
    fmt::print("plugh");
}
```

`main` has no parameters and falls off the end, so the exit status is 0 in
both branches. -/
def extDepsMain (hu : HuLib) : ProgResult :=
  match hu.fromString "{foo:bar}" with
  | some t => { output := hu.query t "foo", exitCode := 0 }
  | none => { output := "plugh", exitCode := 0 }

/-- Split a character list at its first `:`; `none` when there is no `:`.
Auxiliary to the model of the external parser. -/
def breakColon : List Char → Option (List Char × List Char)
  | [] => none
  | c :: rest =>
    if c = ':' then some ([], rest)
    else
      match breakColon rest with
      | some (k, v) => some (c :: k, v)
      | none => none

/-- Model of the external humon parser `hu::Trove::fromString`, restricted
to the flat one-entry documents the demo exercises: a document is a brace
pair around `key:value` with both parts nonempty; anything else is the
"not a document" variant. -/
def modelFromString (s : String) : Option Trove :=
  match s.data with
  | [] => none
  | c :: rest =>
    if c = '{' ∧ rest ≠ [] ∧ rest.getLast? = some '}' then
      match breakColon rest.dropLast with
      | some (k, v) =>
        if k ≠ [] ∧ v ≠ [] then some ⟨[(⟨k⟩, ⟨v⟩)]⟩ else none
      | none => none
    else none

/-- The modelled humon library. -/
def modelHu : HuLib :=
  { fromString := modelFromString, query := Trove.queryStr }

/-- A humon-library behaviour in which parsing yields the "not a document"
variant (as it does on malformed input). -/
def noneHu : HuLib :=
  { fromString := fun _ => none, query := Trove.queryStr }

/-! ## The GUI demo's `main` (`demos/simple/src/simple.cpp`) -/

/-- Environment for the GUI demo's `main`: the outcomes of the external
gtkmm calls it makes. An `Except.error msg` outcome embeds the call
throwing a `std::exception` whose `what()` is `msg`.

* `addFromFile` — outcome of `builder->add_from_file(path)`;
* `getWidgetDerived` — outcome of `builder->get_widget_derived("main",
  window)`: it may throw, or leave the `window` pointer null (`Option`);
  the window is embedded by its widget name;
* `runOutcome` — outcome of `app->run(*window, argc, argv)`. -/
structure GtkEnv where
  addFromFile : String → Except String Unit
  getWidgetDerived : String → Except String (Option String)
  runOutcome : String → Except String Unit

/-- Observable result of a run of the GUI demo's `main`: exit status, what
was printed to standard output, whether the application run loop was
entered, and the names of the external calls that received `argc`/`argv`,
in order. -/
structure SimpleResult where
  exitCode : Nat
  stdout : String
  runCalled : Bool
  argsForwardedTo : List String
deriving Repr, DecidableEq

/-- Embedding of `main` of `demos/simple/src/simple.cpp`:

```cpp
int main(int argc, char **argv)
{
    auto app = Gtk::Application::create(argc, argv, "org.spacemeat.pyke");
    auto builder = Gtk::Builder::create();
    try { builder->add_from_file("res/simple.glade"); }
    catch(const std::exception & ex)
    {
        std::cout << "Error loading glade file: " << ex.what() << std::endl;
        return 1;
    }
    simple::simple_ui * window = nullptr;
    try
    {
        builder->get_widget_derived("main", window);
        if (window) { app->run(*window, argc, argv); }
    }
    catch(const std::exception & ex) { delete window; window = nullptr; }
    delete window;
    return 0;
}
```

`argc`/`argv` are received as parameters (and are otherwise unused: the
result cannot depend on them). The `*window` dereference inside
`app->run(*window, argc, argv)` goes through `deref`, so the whole run is
an `Except Unit`: an `Except.error ()` overall outcome would be a null
dereference. -/
def simpleMain (env : GtkEnv) (argc : Nat) (argv : List String) :
    Except Unit SimpleResult :=
  let forwarded := ["Gtk::Application::create"]
  match env.addFromFile "res/simple.glade" with
  | Except.error msg =>
    Except.ok { exitCode := 1,
                stdout := "Error loading glade file: " ++ msg ++ "\n",
                runCalled := false, argsForwardedTo := forwarded }
  | Except.ok _ =>
    match env.getWidgetDerived "main" with
    | Except.error _ =>
      Except.ok { exitCode := 0, stdout := "", runCalled := false,
                  argsForwardedTo := forwarded }
    | Except.ok window =>
      if window.isSome then
        match deref window with
        | Except.error e => Except.error e
        | Except.ok w =>
          match env.runOutcome w with
          | Except.ok _ =>
            Except.ok { exitCode := 0, stdout := "", runCalled := true,
                        argsForwardedTo :=
                          forwarded ++ ["Gtk::Application::run"] }
          | Except.error _ =>
            Except.ok { exitCode := 0, stdout := "", runCalled := true,
                        argsForwardedTo :=
                          forwarded ++ ["Gtk::Application::run"] }
      else
        Except.ok { exitCode := 0, stdout := "", runCalled := false,
                    argsForwardedTo := forwarded }

/-- A concrete environment in which the glade layout file fails to load. -/
def envLoadFail : GtkEnv :=
  { addFromFile := fun _ => Except.error "Failed to open file"
    getWidgetDerived := fun _ => Except.ok none
    runOutcome := fun _ => Except.ok () }

/-- A concrete environment in which everything succeeds and the derived
window is obtained. -/
def envAllGood : GtkEnv :=
  { addFromFile := fun _ => Except.ok ()
    getWidgetDerived := fun _ => Except.ok (some "main")
    runOutcome := fun _ => Except.ok () }

/-- A concrete environment in which the layout loads but widget retrieval
throws. -/
def envWidgetThrows : GtkEnv :=
  { addFromFile := fun _ => Except.ok ()
    getWidgetDerived := fun _ => Except.error "widget error"
    runOutcome := fun _ => Except.ok () }

/-- A concrete environment in which the layout loads and widget retrieval
returns without throwing, but leaves the window pointer null. -/
def envWindowNull : GtkEnv :=
  { addFromFile := fun _ => Except.ok ()
    getWidgetDerived := fun _ => Except.ok none
    runOutcome := fun _ => Except.ok () }

/-! ## The window constructor (`demos/simple/src/simple_ui.cpp`) -/

/-- An embedded gtkmm widget, identified by its name. -/
structure Widget where
  name : String
deriving Repr, DecidableEq

/-- Environment for the window constructor: the builder's widget lookups
(`builder->get_widget(name, ptr)` leaves `ptr` null when the layout has no
such widget, embedded as `none`). -/
structure Builder where
  getButton : String → Option Widget
  getLabel : String → Option Widget

/-- The strings returned by the four library getter calls the constructor
makes: `lib.get_a_string()` and `lib.get_b_string()` on a
`simple::simple_lib` instance, and the free functions `get_a_string()` and
`get_b_string()` of the shared-object library. -/
structure LibStrings where
  lib_a : String
  lib_b : String
  so_a : String
  so_b : String

/-- The externally visible actions the constructor performed, in order:
the names of the widgets whose `clicked` signal it connected to
`simple_ui::on_click`, and the `(widget name, text)` pairs of its
`set_text` calls. -/
structure UiActions where
  connectedToOnClick : List String
  labelTexts : List (String × String)
deriving Repr, DecidableEq

/-- One constructor block `if (button) { button->signal_clicked().connect(
sigc::mem_fun(*this, & simple_ui::on_click)); }`: when the pointer is
non-null it is dereferenced (via `deref`) and the connection recorded. -/
def doConnect (w : Option Widget) (s : UiActions) : Except Unit UiActions :=
  if w.isSome then
    match deref w with
    | Except.error e => Except.error e
    | Except.ok b =>
      Except.ok { s with connectedToOnClick := s.connectedToOnClick ++ [b.name] }
  else Except.ok s

/-- One constructor block `if (label) { label->set_text(txt); }`: when the
pointer is non-null it is dereferenced (via `deref`) and the text-set
recorded. -/
def doSetText (w : Option Widget) (txt : String) (s : UiActions) :
    Except Unit UiActions :=
  if w.isSome then
    match deref w with
    | Except.error e => Except.error e
    | Except.ok lab =>
      Except.ok { s with labelTexts := s.labelTexts ++ [(lab.name, txt)] }
  else Except.ok s

/-- Embedding of the constructor `simple::simple_ui::simple_ui` of
`demos/simple/src/simple_ui.cpp`:

```cpp
Gtk::Button * button = nullptr;
builder->get_widget("quit", button);
if (button)
{ button->signal_clicked().connect(sigc::mem_fun(*this, & simple_ui::on_click)); }

simple::simple_lib lib;

Gtk::Label * label = nullptr;
builder->get_widget("static_a", label);
if (label) { label->set_text(lib.get_a_string()); }

label = nullptr;
builder->get_widget("static_b", label);
if (label) { label->set_text(lib.get_b_string()); }

label = nullptr;
builder->get_widget("dynamic_a", label);
if (label) { label->set_text(get_a_string()); }

label = nullptr;
builder->get_widget("dynamic_b", label);
if (label) { label->set_text(get_b_string()); }
```
-/
def simple_ui_ctor (b : Builder) (libs : LibStrings) : Except Unit UiActions :=
  (doConnect (b.getButton "quit") { connectedToOnClick := [], labelTexts := [] }).bind
    fun s =>
  (doSetText (b.getLabel "static_a") libs.lib_a s).bind fun s =>
  (doSetText (b.getLabel "static_b") libs.lib_b s).bind fun s =>
  (doSetText (b.getLabel "dynamic_a") libs.so_a s).bind fun s =>
  (doSetText (b.getLabel "dynamic_b") libs.so_b s).bind fun s =>
  Except.ok s

/-- The window state the handler acts on: whether the window is shown. -/
structure WindowState where
  visible : Bool
deriving Repr, DecidableEq

/-- Embedding of `simple::simple_ui::on_click`: it calls `hide()`. -/
def on_click (w : WindowState) : WindowState :=
  { w with visible := false }

/-- Modelled toolkit semantics (gtkmm, not repository code): the
application run loop started by `app->run(window, ...)` ends once that
window is hidden. -/
def runLoopEnds (w : WindowState) : Bool :=
  !w.visible

/-- Name contribution of an optional widget: used to state what the
constructor recorded for a lookup that may have failed. -/
def optName (w : Option Widget) : List String :=
  match w with
  | none => []
  | some b => [b.name]

/-- `set_text` contribution of an optional widget: one `(name, txt)` entry
when present, nothing when the widget is missing from the layout. -/
def entryFor (w : Option Widget) (txt : String) : List (String × String) :=
  match w with
  | none => []
  | some lab => [(lab.name, txt)]

/-- A concrete builder holding every widget the constructor looks up. -/
def fullBuilder : Builder :=
  { getButton := fun n => if n = "quit" then some ⟨"quit"⟩ else none
    getLabel := fun n =>
      if n = "static_a" ∨ n = "static_b" ∨ n = "dynamic_a" ∨ n = "dynamic_b"
      then some ⟨n⟩ else none }

/-- A concrete builder holding no widgets at all. -/
def emptyBuilder : Builder :=
  { getButton := fun _ => none, getLabel := fun _ => none }

/-- Concrete getter strings for witnesses. -/
def someLibs : LibStrings :=
  { lib_a := "static string A", lib_b := "static string B",
    so_a := "dynamic string A", so_b := "dynamic string B" }

/-- Full characterisation of the constructor: it never fails (no null
dereference), the quit connection is recorded exactly when the quit button
is in the layout, and each label contributes its `(name, getter string)`
entry exactly when it is in the layout, in source order. -/
theorem simple_ui_ctor_eq (b : Builder) (libs : LibStrings) :
    simple_ui_ctor b libs =
      Except.ok
        { connectedToOnClick := optName (b.getButton "quit"),
          labelTexts :=
            entryFor (b.getLabel "static_a") libs.lib_a ++
            entryFor (b.getLabel "static_b") libs.lib_b ++
            entryFor (b.getLabel "dynamic_a") libs.so_a ++
            entryFor (b.getLabel "dynamic_b") libs.so_b } := by
  cases hq : b.getButton "quit" <;>
    cases h1 : b.getLabel "static_a" <;>
    cases h2 : b.getLabel "static_b" <;>
    cases h3 : b.getLabel "dynamic_a" <;>
    cases h4 : b.getLabel "dynamic_b" <;>
    simp [simple_ui_ctor, doConnect, doSetText, deref, optName, entryFor,
          hq, h1, h2, h3, h4, Except.bind]

/-- The glade-load error line is never the empty string. -/
theorem errOut_ne (msg : String) :
    ("Error loading glade file: " ++ msg ++ "\n" : String) ≠ "" := by
  intro hcontra
  have hlen : ("Error loading glade file: " ++ msg ++ "\n").length = 0 := by
    rw [hcontra]
    rfl
  rw [String.length_append, String.length_append] at hlen
  have hnl : ("\n" : String).length = 1 := rfl
  rw [hnl] at hlen
  omega

/-- Normal form of a run in which the glade load throws. -/
theorem simpleMain_load_fail (env : GtkEnv) (argc : Nat) (argv : List String)
    (msg : String)
    (h : env.addFromFile "res/simple.glade" = Except.error msg) :
    simpleMain env argc argv =
      Except.ok { exitCode := 1,
                  stdout := "Error loading glade file: " ++ msg ++ "\n",
                  runCalled := false,
                  argsForwardedTo := ["Gtk::Application::create"] } := by
  simp [simpleMain, h]

/-- Normal form of a run in which the glade load succeeds and widget
retrieval throws. -/
theorem simpleMain_widget_throw (env : GtkEnv) (argc : Nat) (argv : List String)
    (msg : String)
    (h1 : env.addFromFile "res/simple.glade" = Except.ok ())
    (h2 : env.getWidgetDerived "main" = Except.error msg) :
    simpleMain env argc argv =
      Except.ok { exitCode := 0, stdout := "", runCalled := false,
                  argsForwardedTo := ["Gtk::Application::create"] } := by
  simp [simpleMain, h1, h2]

/-- Normal form of a run in which widget retrieval returns without
throwing but leaves the window pointer null. -/
theorem simpleMain_window_none (env : GtkEnv) (argc : Nat) (argv : List String)
    (h1 : env.addFromFile "res/simple.glade" = Except.ok ())
    (h2 : env.getWidgetDerived "main" = Except.ok none) :
    simpleMain env argc argv =
      Except.ok { exitCode := 0, stdout := "", runCalled := false,
                  argsForwardedTo := ["Gtk::Application::create"] } := by
  simp [simpleMain, h1, h2]

/-- Normal form of a run in which the window is obtained and the run loop
is entered (whether or not `app->run` itself throws). -/
theorem simpleMain_window_some (env : GtkEnv) (argc : Nat) (argv : List String)
    (w : String)
    (h1 : env.addFromFile "res/simple.glade" = Except.ok ())
    (h2 : env.getWidgetDerived "main" = Except.ok (some w)) :
    simpleMain env argc argv =
      Except.ok { exitCode := 0, stdout := "", runCalled := true,
                  argsForwardedTo :=
                    ["Gtk::Application::create", "Gtk::Application::run"] } := by
  cases h3 : env.runOutcome w <;> simp [simpleMain, h1, h2, deref, h3]

/-! ## The claims -/

/-- C1: for the fixed hardcoded input `{foo:bar}`, the parse-and-query demo
parses it, queries the key `foo`, and prints exactly the string it obtains
for it — `bar`, for any parser behaving as humon does on this document. -/
theorem extDeps_prints_bar (hu : HuLib) (t : Trove)
    (h1 : hu.fromString "{foo:bar}" = some t)
    (h2 : hu.query t "foo" = "bar") :
    extDepsMain hu = { output := "bar", exitCode := 0 } := by
  simp [extDepsMain, h1, h2]

/-- C1 witness: the modelled parser parses `{foo:bar}` to a trove whose
`foo` entry is `bar`, and the demo prints `bar`. -/
theorem extDeps_prints_bar_witness :
    extDepsMain modelHu = { output := "bar", exitCode := 0 } :=
  extDeps_prints_bar modelHu ⟨[("foo", "bar")]⟩ (by decide) (by decide)

/-- C2: whenever the parser returns the not-a-document variant, the demo
prints exactly the fallback literal `plugh` and nothing else. -/
theorem extDeps_fallback_plugh (hu : HuLib)
    (h : hu.fromString "{foo:bar}" = none) :
    extDepsMain hu = { output := "plugh", exitCode := 0 } := by
  simp [extDepsMain, h]

/-- C2 witness: under a parser run yielding the not-a-document variant,
the demo's entire output is `plugh`. -/
theorem extDeps_fallback_plugh_witness :
    extDepsMain noneHu = { output := "plugh", exitCode := 0 } :=
  extDeps_fallback_plugh noneHu rfl

/-- C9: the parse-and-query demo always exits with status 0, in both the
successful-parse branch and the fallback branch. -/
theorem extDeps_always_exit0 (hu : HuLib) : (extDepsMain hu).exitCode = 0 := by
  cases h : hu.fromString "{foo:bar}" <;> simp [extDepsMain, h]

/-- C9 witness: exit status 0 at the modelled parser. -/
theorem extDeps_always_exit0_witness : (extDepsMain modelHu).exitCode = 0 :=
  extDeps_always_exit0 modelHu

/-- C3: the GUI demo exits with status 1 and prints an error message to
standard output exactly when the glade layout fails to load; in every
other run it exits with status 0 (and prints nothing). -/
theorem gui_exit1_iff_load_fails (env : GtkEnv) (argc : Nat)
    (argv : List String) :
    ∃ r, simpleMain env argc argv = Except.ok r ∧
      ((r.exitCode = 1 ∧ r.stdout ≠ "") ↔
        isErr (env.addFromFile "res/simple.glade") = true) ∧
      (isErr (env.addFromFile "res/simple.glade") = false →
        r.exitCode = 0 ∧ r.stdout = "") := by
  cases h1 : env.addFromFile "res/simple.glade" with
  | error msg =>
    refine ⟨_, simpleMain_load_fail env argc argv msg h1, ?_, ?_⟩ <;>
      simp [isErr, errOut_ne msg]
  | ok u =>
    cases u
    cases h2 : env.getWidgetDerived "main" with
    | error m =>
      refine ⟨_, simpleMain_widget_throw env argc argv m h1 h2, ?_, ?_⟩ <;>
        simp [isErr]
    | ok w =>
      cases w with
      | none =>
        refine ⟨_, simpleMain_window_none env argc argv h1 h2, ?_, ?_⟩ <;>
          simp [isErr]
      | some w =>
        refine ⟨_, simpleMain_window_some env argc argv w h1 h2, ?_, ?_⟩ <;>
          simp [isErr]

/-- C3 witness: with a failing glade load the demo exits 1 with a nonempty
error line; with everything succeeding it exits 0 printing nothing. -/
theorem gui_exit1_iff_load_fails_witness :
    (∃ r, simpleMain envLoadFail 0 [] = Except.ok r ∧
      r.exitCode = 1 ∧ r.stdout ≠ "") ∧
    (∃ r, simpleMain envAllGood 0 [] = Except.ok r ∧
      r.exitCode = 0 ∧ r.stdout = "") := by
  constructor
  · obtain ⟨r, hr, hiff, _⟩ := gui_exit1_iff_load_fails envLoadFail 0 []
    have h := hiff.mpr rfl
    exact ⟨r, hr, h.1, h.2⟩
  · obtain ⟨r, hr, _, himp⟩ := gui_exit1_iff_load_fails envAllGood 0 []
    have h := himp rfl
    exact ⟨r, hr, h.1, h.2⟩

/-- C4: whenever the layout holds all four labels, the constructor sets
their texts, in source order, to exactly the strings returned by the four
getter calls, each verbatim. -/
theorem ctor_sets_labels_from_getters (b : Builder) (libs : LibStrings)
    (wa wb wc wd : Widget)
    (h1 : b.getLabel "static_a" = some wa)
    (h2 : b.getLabel "static_b" = some wb)
    (h3 : b.getLabel "dynamic_a" = some wc)
    (h4 : b.getLabel "dynamic_b" = some wd) :
    ∃ s, simple_ui_ctor b libs = Except.ok s ∧
      s.labelTexts = [(wa.name, libs.lib_a), (wb.name, libs.lib_b),
                      (wc.name, libs.so_a), (wd.name, libs.so_b)] := by
  refine ⟨_, simple_ui_ctor_eq b libs, ?_⟩
  simp [entryFor, h1, h2, h3, h4]

/-- C4 witness: with a full layout and concrete getter strings, the four
labels receive those strings verbatim. -/
theorem ctor_sets_labels_from_getters_witness :
    ∃ s, simple_ui_ctor fullBuilder someLibs = Except.ok s ∧
      s.labelTexts = [("static_a", "static string A"),
                      ("static_b", "static string B"),
                      ("dynamic_a", "dynamic string A"),
                      ("dynamic_b", "dynamic string B")] :=
  ctor_sets_labels_from_getters fullBuilder someLibs
    ⟨"static_a"⟩ ⟨"static_b"⟩ ⟨"dynamic_a"⟩ ⟨"dynamic_b"⟩
    (by decide) (by decide) (by decide) (by decide)

/-- C5: when the layout holds the quit button, the constructor connects its
`clicked` signal to `on_click`, and `on_click` hides the window, which ends
the application run loop (modelled toolkit semantics `runLoopEnds`). -/
theorem quit_click_closes_window (b : Builder) (libs : LibStrings) (q : Widget)
    (hq : b.getButton "quit" = some q) :
    (∃ s, simple_ui_ctor b libs = Except.ok s ∧
      s.connectedToOnClick = [q.name]) ∧
    (∀ w : WindowState,
      (on_click w).visible = false ∧ runLoopEnds (on_click w) = true) := by
  constructor
  · refine ⟨_, simple_ui_ctor_eq b libs, ?_⟩
    simp [optName, hq]
  · intro w
    exact ⟨rfl, rfl⟩

/-- C5 witness: with the full layout, the quit button is connected to
`on_click`, and clicking a visible window hides it and ends the loop. -/
theorem quit_click_closes_window_witness :
    (∃ s, simple_ui_ctor fullBuilder someLibs = Except.ok s ∧
      s.connectedToOnClick = ["quit"]) ∧
    ((on_click ⟨true⟩).visible = false ∧
      runLoopEnds (on_click ⟨true⟩) = true) := by
  obtain ⟨h1, h2⟩ :=
    quit_click_closes_window fullBuilder someLibs ⟨"quit"⟩ (by decide)
  exact ⟨h1, h2 ⟨true⟩⟩

/-- C6: when widget retrieval throws after a successful layout load, the
demo silently swallows the exception (prints nothing), never enters the
application run loop, and exits with status 0. -/
theorem gui_widget_throw_swallowed (env : GtkEnv) (argc : Nat)
    (argv : List String) (msg : String)
    (h1 : env.addFromFile "res/simple.glade" = Except.ok ())
    (h2 : env.getWidgetDerived "main" = Except.error msg) :
    ∃ r, simpleMain env argc argv = Except.ok r ∧
      r.stdout = "" ∧ r.runCalled = false ∧ r.exitCode = 0 :=
  ⟨_, simpleMain_widget_throw env argc argv msg h1 h2, rfl, rfl, rfl⟩

/-- C6 witness: a concrete run in which widget retrieval throws. -/
theorem gui_widget_throw_swallowed_witness :
    ∃ r, simpleMain envWidgetThrows 0 [] = Except.ok r ∧
      r.stdout = "" ∧ r.runCalled = false ∧ r.exitCode = 0 :=
  gui_widget_throw_swallowed envWidgetThrows 0 [] "widget error" rfl rfl

/-- C7 counterexample: in a successful run the demo also forwards
`argc`/`argv` to `app->run` (line 24 of `simple.cpp`), so they are not
forwarded to the application-lifecycle initializer only. -/
theorem gui_args_create_only_cex :
    ∃ r, simpleMain envAllGood 0 [] = Except.ok r ∧
      r.argsForwardedTo ≠ ["Gtk::Application::create"] :=
  ⟨{ exitCode := 0, stdout := "", runCalled := true,
     argsForwardedTo := ["Gtk::Application::create", "Gtk::Application::run"] },
   rfl, by decide⟩

/-- C7 amended: the GUI demo forwards `argc`/`argv` to the toolkit's
application-lifecycle initializer and, exactly when a window was obtained
and the run loop entered, also to the application's run call — and to no
other call; the result of a run does not depend on `argc`/`argv`. -/
theorem gui_args_forwarded (env : GtkEnv) (argc : Nat) (argv : List String) :
    (∃ r, simpleMain env argc argv = Except.ok r ∧
      r.argsForwardedTo =
        "Gtk::Application::create" ::
          (if r.runCalled then ["Gtk::Application::run"] else [])) ∧
    simpleMain env argc argv = simpleMain env 0 [] := by
  refine ⟨?_, rfl⟩
  cases h1 : env.addFromFile "res/simple.glade" with
  | error msg => exact ⟨_, simpleMain_load_fail env argc argv msg h1, rfl⟩
  | ok u =>
    cases u
    cases h2 : env.getWidgetDerived "main" with
    | error m => exact ⟨_, simpleMain_widget_throw env argc argv m h1 h2, rfl⟩
    | ok w =>
      cases w with
      | none => exact ⟨_, simpleMain_window_none env argc argv h1 h2, rfl⟩
      | some w => exact ⟨_, simpleMain_window_some env argc argv w h1 h2, rfl⟩

/-- C7 amended witness: a successful run forwards `argc`/`argv` to the
initializer and to the run call, and the result ignores `argc`/`argv`. -/
theorem gui_args_forwarded_witness :
    (∃ r, simpleMain envAllGood 5 ["x"] = Except.ok r ∧
      r.argsForwardedTo =
        "Gtk::Application::create" ::
          (if r.runCalled then ["Gtk::Application::run"] else [])) ∧
    simpleMain envAllGood 5 ["x"] = simpleMain envAllGood 0 [] :=
  gui_args_forwarded envAllGood 5 ["x"]

/-- C8: for every layout, the constructor null-checks each retrieved widget
pointer: it never fails (never dereferences null), and a missing widget
contributes no action — each connection/text-set happens exactly when its
widget is present. -/
theorem ctor_null_safe_skips_missing (b : Builder) (libs : LibStrings) :
    ∃ s, simple_ui_ctor b libs = Except.ok s ∧
      s.connectedToOnClick.length =
        (if (b.getButton "quit").isSome then 1 else 0) ∧
      s.labelTexts.length =
        (if (b.getLabel "static_a").isSome then 1 else 0) +
        (if (b.getLabel "static_b").isSome then 1 else 0) +
        (if (b.getLabel "dynamic_a").isSome then 1 else 0) +
        (if (b.getLabel "dynamic_b").isSome then 1 else 0) := by
  refine ⟨_, simple_ui_ctor_eq b libs, ?_, ?_⟩
  · cases b.getButton "quit" <;> simp [optName]
  · cases b.getLabel "static_a" <;> cases b.getLabel "static_b" <;>
      cases b.getLabel "dynamic_a" <;> cases b.getLabel "dynamic_b" <;>
      simp [entryFor]

/-- C8 witness: with an empty layout every widget is silently skipped and
the constructor still completes without a null dereference. -/
theorem ctor_null_safe_skips_missing_witness :
    ∃ s, simple_ui_ctor emptyBuilder someLibs = Except.ok s ∧
      s.connectedToOnClick.length =
        (if (emptyBuilder.getButton "quit").isSome then 1 else 0) ∧
      s.labelTexts.length =
        (if (emptyBuilder.getLabel "static_a").isSome then 1 else 0) +
        (if (emptyBuilder.getLabel "static_b").isSome then 1 else 0) +
        (if (emptyBuilder.getLabel "dynamic_a").isSome then 1 else 0) +
        (if (emptyBuilder.getLabel "dynamic_b").isSome then 1 else 0) :=
  ctor_null_safe_skips_missing emptyBuilder someLibs

/-- C10: if widget retrieval returns without throwing but leaves the window
pointer null, the demo never calls the run loop, dereferences no null
window (the run is `Except.ok`, and the embedded `*window` dereference is
the only possible `Except.error`), and exits with status 0. -/
theorem gui_window_null_safe (env : GtkEnv) (argc : Nat) (argv : List String)
    (h1 : env.addFromFile "res/simple.glade" = Except.ok ())
    (h2 : env.getWidgetDerived "main" = Except.ok none) :
    simpleMain env argc argv =
      Except.ok { exitCode := 0, stdout := "", runCalled := false,
                  argsForwardedTo := ["Gtk::Application::create"] } :=
  simpleMain_window_none env argc argv h1 h2

/-- C10 witness: a concrete run in which the window pointer stays null. -/
theorem gui_window_null_safe_witness :
    simpleMain envWindowNull 0 [] =
      Except.ok { exitCode := 0, stdout := "", runCalled := false,
                  argsForwardedTo := ["Gtk::Application::create"] } :=
  gui_window_null_safe envWindowNull 0 [] rfl rfl

end Pyke
